import Mathlib

/-!
# SG90 servo driver: embedding of `drivers/pwm/pwm-SG90.c`

The driver is a Linux character device that positions a hobby servo through one
PWM channel.  The embedding below follows the C source function by function.

* C `int` values are `Int`; every arithmetic result of the duty computation is
  passed through `wrap32`.
* Kernel pointers are `Int` (the pointer read as a signed long), so that
  `IS_ERR` and `PTR_ERR` keep their meaning; `0` is `NULL`.
* The kernel services the driver calls (`kzalloc`, `pwm_get`, `pwm_config`,
  `pwm_enable`, the character-device registration calls) are not part of the
  driver.  Their results are supplied by a `Platform` value, one field per
  service, and every call is appended to a trace of `Event`s together with the
  result it returned.  `pr_info` and `pr_err` only print and are left out.
-/

namespace SG90

/-! ## Constants of the source file -/

def SERVO_MIN_ANGLE : Int := 0
def SERVO_MAX_ANGLE : Int := 180
def SERVO_MIN_DUTY_NS : Int := 500000
def SERVO_MAX_DUTY_NS : Int := 2500000
def SERVO_PERIOD_NS : Int := 20000000

/-! ## Kernel constants and macros used by the driver -/

def ENOMEM : Int := 12
def EFAULT : Int := 14
def ENODEV : Int := 19
def ENOTTY : Int := 25
def MAX_ERRNO : Int := 4095

/-- The `IS_ERR` test of `linux/err.h`: a pointer is an encoded error when it
lies in the last `MAX_ERRNO` addresses, that is in `[-4095, -1]` as a signed
long. `PTR_ERR` and `ERR_PTR` are the identity on this representation. -/
def IS_ERR (ptr : Int) : Bool := decide (-MAX_ERRNO ≤ ptr ∧ ptr < 0)

/-- The request-number encoding of `asm-generic/ioctl.h`:
direction in bits 30-31, size in bits 16-29, type in bits 8-15, number in bits 0-7. -/
def ioc (dir ty nr size : Nat) : Nat := dir * 2 ^ 30 + size * 2 ^ 16 + ty * 2 ^ 8 + nr

/-- The request `_IOW('S', 1, int)`: direction write (1), type `S` (83), size 4. -/
def SERVO_SET_ANGLE : Nat := ioc 1 83 1 4

/-- The request `_IOR('S', 2, int)`: direction read (2), type `S` (83), size 4. -/
def SERVO_GET_ANGLE : Nat := ioc 2 83 2 4

/-- Value of a C `int` result: reduction to 32 bits, two's complement. -/
def wrap32 (x : Int) : Int := (x + 2147483648) % 4294967296 - 2147483648

/-! ## Data model -/

/-- Timing state the PWM core keeps for the channel (`duty_cycle`, `period` and
the enabled flag of `struct pwm_device`). -/
structure pwm_state where
  duty_cycle : Int
  period : Int
  enabled : Bool
  deriving DecidableEq, Repr

/-- The driver's `struct servo_device`; `class_` is the field `class`. The
embedded `cdev` carries no data the driver reads and is omitted. -/
structure servo_device where
  pwm : Int
  devno : Nat
  class_ : Int
  device : Int
  current_angle : Int
  deriving DecidableEq, Repr

/-- One call into the kernel, with the values passed and the result returned. -/
inductive Event where
  | kzalloc (ptr : Int)
  | pwm_get (name : Option String) (ptr : Int)
  | alloc_chrdev_region (ret : Int)
  | cdev_init
  | cdev_add (ret : Int)
  | class_create (ptr : Int)
  | device_create (ptr : Int)
  | pwm_config (pwm duty_ns period_ns ret : Int)
  | pwm_enable (pwm ret : Int)
  | pwm_disable (pwm : Int)
  | pwm_put (pwm : Int)
  | device_destroy
  | class_destroy
  | cdev_del
  | unregister_chrdev_region
  | kfree
  deriving DecidableEq, Repr

/-- What lies outside the driver: the channel's timing state and the calls made so far. -/
structure World where
  chan : pwm_state
  trace : List Event
  deriving DecidableEq, Repr

/-- Results of the kernel services, one field per service. `pwm_config` and
`pwm_enable` may depend on the channel state and on the timing requested. -/
structure Platform where
  chan0 : pwm_state
  kzalloc : Int
  pwm_get : Option String → Int
  alloc_chrdev_region : Int
  devno : Nat
  cdev_add : Int
  class_create : Int
  device_create : Int
  pwm_config : pwm_state → Int → Int → Int
  pwm_enable : pwm_state → Int

/-- The user-space word an ioctl argument points to: `value` is what
`copy_from_user` reads (`none` when the read faults), `writable` tells whether
`copy_to_user` succeeds. -/
structure UserArg where
  value : Option Int
  writable : Bool

def World.log (w : World) (e : Event) : World := { w with trace := w.trace ++ [e] }

/-! ## Kernel PWM calls

A negative return is a failure and leaves the channel as it was; otherwise the
requested timing (resp. the enabled flag) is recorded on the channel. -/

def pwm_config (p : Platform) (dev : servo_device) (w : World) (duty_ns period_ns : Int) :
    Int × World :=
  let ret := p.pwm_config w.chan duty_ns period_ns
  let chan := if ret < 0 then w.chan
    else { w.chan with duty_cycle := duty_ns, period := period_ns }
  (ret, { chan := chan, trace := w.trace ++ [Event.pwm_config dev.pwm duty_ns period_ns ret] })

def pwm_enable (p : Platform) (dev : servo_device) (w : World) : Int × World :=
  let ret := p.pwm_enable w.chan
  let chan := if ret < 0 then w.chan else { w.chan with enabled := true }
  (ret, { chan := chan, trace := w.trace ++ [Event.pwm_enable dev.pwm ret] })

def pwm_disable (dev : servo_device) (w : World) : World :=
  { chan := { w.chan with enabled := false }, trace := w.trace ++ [Event.pwm_disable dev.pwm] }

/-! ## `servo_set_angle` (lines 34-70) -/

/-- Lines 40-43: the two range tests on `angle`. -/
def clamp_angle (angle : Int) : Int :=
  let angle := if angle < SERVO_MIN_ANGLE then SERVO_MIN_ANGLE else angle
  if angle > SERVO_MAX_ANGLE then SERVO_MAX_ANGLE else angle

/-- Lines 46-48: the duty computation in C `int` arithmetic; `/` of C truncates
toward zero. -/
def duty_ns_of (angle : Int) : Int :=
  wrap32 (SERVO_MIN_DUTY_NS +
    Int.tdiv (wrap32 (angle * wrap32 (SERVO_MAX_DUTY_NS - SERVO_MIN_DUTY_NS)))
      (wrap32 (SERVO_MAX_ANGLE - SERVO_MIN_ANGLE)))

def servo_set_angle (p : Platform) (dev : servo_device) (w : World) (angle : Int) :
    Int × servo_device × World :=
  let angle := clamp_angle angle
  let duty_ns := duty_ns_of angle
  let r1 := pwm_config p dev w duty_ns SERVO_PERIOD_NS
  if r1.1 < 0 then (r1.1, dev, r1.2)
  else
    let r2 := pwm_enable p dev r1.2
    if r2.1 < 0 then (r2.1, dev, r2.2)
    else (0, { dev with current_angle := angle }, r2.2)

/-! ## `servo_ioctl` (lines 72-96)

The result carries, besides the return value and the state, the word written
to user space by `copy_to_user` (if any). -/

def servo_ioctl (p : Platform) (dev : servo_device) (w : World) (cmd : Nat) (arg : UserArg) :
    Int × servo_device × World × Option Int :=
  if cmd = SERVO_SET_ANGLE then
    match arg.value with
    | none => (-EFAULT, dev, w, none)
    | some angle =>
      let r := servo_set_angle p dev w angle
      (r.1, r.2.1, r.2.2, none)
  else if cmd = SERVO_GET_ANGLE then
    if arg.writable then (0, dev, w, some dev.current_angle)
    else (-EFAULT, dev, w, none)
  else (-ENOTTY, dev, w, none)

/-! ## `servo_get_pwm_device` (lines 117-147) -/

/-- The array `pwm_names` without its terminating `NULL`. -/
def pwm_names : List String := ["pwmchip2", "2030000.pwm", "sg90"]

/-- The `for` loop of lines 130-137 over the remaining names: `some pwm` when a
name was accepted (the function returns there), `none` when the loop ran out. -/
def try_pwm_names (p : Platform) : List String → World → Option Int × World
  | [], w => (none, w)
  | name :: rest, w =>
    let pwm := p.pwm_get (some name)
    let w1 := w.log (Event.pwm_get (some name) pwm)
    if !IS_ERR pwm then (some pwm, w1) else try_pwm_names p rest w1

def servo_get_pwm_device (p : Platform) (w : World) : Int × World :=
  match try_pwm_names p pwm_names w with
  | (some pwm, w1) => (pwm, w1)
  | (none, w1) =>
    let pwm := p.pwm_get none
    let w2 := w1.log (Event.pwm_get none pwm)
    if !IS_ERR pwm then (pwm, w2) else (-ENODEV, w2)

/-! ## `servo_init` (lines 149-220) and `servo_exit` (lines 222-236) -/

/-- The world in which `servo_init` starts looking for a channel: the
allocation of the device structure is the only call made. -/
def init_world (p : Platform) : World :=
  { chan := p.chan0, trace := [Event.kzalloc p.kzalloc] }

/-- Label `err_pwm`. -/
def err_pwm (w : World) : World := w.log Event.kfree

/-- Label `err_alloc`, falling through to `err_pwm`. -/
def err_alloc (dev : servo_device) (w : World) : World :=
  err_pwm (w.log (Event.pwm_put dev.pwm))

/-- Label `err_cdev`, falling through to `err_alloc`. -/
def err_cdev (dev : servo_device) (w : World) : World :=
  err_alloc dev (w.log Event.unregister_chrdev_region)

/-- Label `err_class`, falling through to `err_cdev`. -/
def err_class (dev : servo_device) (w : World) : World :=
  err_cdev dev (w.log Event.cdev_del)

/-- Label `err_device`, falling through to `err_class`. -/
def err_device (dev : servo_device) (w : World) : World :=
  err_class dev (w.log Event.class_destroy)

/-- Lines 154-200: allocation, channel lookup and the four registration steps.
`Except.ok` is the state in which line 203 is reached; `Except.error` carries
the value returned through the error labels and the world after unwinding. -/
def servo_init_acquire (p : Platform) : Except (Int × World) (servo_device × World) :=
  let w0 := init_world p
  if p.kzalloc = 0 then Except.error (-ENOMEM, w0)
  else
    let dev0 : servo_device :=
      { pwm := 0, devno := 0, class_ := 0, device := 0, current_angle := 0 }
    let g := servo_get_pwm_device p w0
    let dev1 := { dev0 with pwm := g.1 }
    if IS_ERR dev1.pwm then Except.error (dev1.pwm, err_pwm g.2)
    else
      let ret := p.alloc_chrdev_region
      let w1 := g.2.log (Event.alloc_chrdev_region ret)
      if ret < 0 then Except.error (ret, err_alloc dev1 w1)
      else
        let dev2 := { dev1 with devno := p.devno }
        let w2 := w1.log Event.cdev_init
        let ret := p.cdev_add
        let w3 := w2.log (Event.cdev_add ret)
        if ret < 0 then Except.error (ret, err_cdev dev2 w3)
        else
          let dev3 := { dev2 with class_ := p.class_create }
          let w4 := w3.log (Event.class_create dev3.class_)
          if IS_ERR dev3.class_ then Except.error (dev3.class_, err_class dev3 w4)
          else
            let dev4 := { dev3 with device := p.device_create }
            let w5 := w4.log (Event.device_create dev4.device)
            if IS_ERR dev4.device then Except.error (dev4.device, err_device dev4 w5)
            else Except.ok (dev4, w5)

/-- The module's init function: its return value, the device structure it
leaves behind (`none` when the structure was not allocated or was freed) and
the world. Line 203 calls `servo_set_angle(90)` and drops its result. -/
def servo_init (p : Platform) : Int × Option servo_device × World :=
  match servo_init_acquire p with
  | Except.error (ret, w) => (ret, none, w)
  | Except.ok (dev, w) =>
    let r := servo_set_angle p dev w 90
    (0, some r.2.1, r.2.2)

def servo_exit (dev : servo_device) (w : World) : World :=
  let w1 := pwm_disable dev w
  let w2 := w1.log (Event.pwm_put dev.pwm)
  let w3 := w2.log Event.device_destroy
  let w4 := w3.log Event.class_destroy
  let w5 := w4.log Event.cdev_del
  let w6 := w5.log Event.unregister_chrdev_region
  w6.log Event.kfree

/-! ## Observations used in the statements -/

/-- The `pwm_config` call `servo_set_angle` makes for input `angle`: its return
value and the world after it. -/
def config_call (p : Platform) (dev : servo_device) (w : World) (angle : Int) : Int × World :=
  pwm_config p dev w (duty_ns_of (clamp_angle angle)) SERVO_PERIOD_NS

/-- The `pwm_enable` call that follows the configure call of `config_call`. -/
def enable_call (p : Platform) (dev : servo_device) (w : World) (angle : Int) : Int × World :=
  pwm_enable p dev (config_call p dev w angle).2

/-- The event of one `pwm_get` attempt on platform `p`. -/
def attempt (p : Platform) (name : Option String) : Event :=
  Event.pwm_get name (p.pwm_get name)

/-- For a call that acquired a resource, the call that gives it back. -/
def undo_of : Event → Option Event
  | Event.kzalloc ptr => if ptr = 0 then none else some Event.kfree
  | Event.pwm_get _ ptr => if IS_ERR ptr then none else some (Event.pwm_put ptr)
  | Event.alloc_chrdev_region ret => if ret < 0 then none else some Event.unregister_chrdev_region
  | Event.cdev_add ret => if ret < 0 then none else some Event.cdev_del
  | Event.class_create ptr => if IS_ERR ptr then none else some Event.class_destroy
  | Event.device_create ptr => if IS_ERR ptr then none else some Event.device_destroy
  | _ => none

/-- The calls that give a resource back. -/
def is_undo : Event → Bool
  | Event.pwm_put _ => true
  | Event.device_destroy => true
  | Event.class_destroy => true
  | Event.cdev_del => true
  | Event.unregister_chrdev_region => true
  | Event.kfree => true
  | _ => false

/-- The undo calls owed for the successful acquisitions of a trace, in order of acquisition. -/
def acquired (tr : List Event) : List Event := tr.filterMap undo_of

/-- The undo calls a trace contains, in order. -/
def released (tr : List Event) : List Event := tr.filter is_undo

/-- The channel carries the duty that `servo_set_angle` computes for the
recorded angle. -/
def Consistent (dev : servo_device) (w : World) : Prop :=
  w.chan.duty_cycle = duty_ns_of dev.current_angle

/-- The duty formula as the specification words it, with rounding to the
nearest integer: `MIN_DUTY + round(angle * (MAX_DUTY - MIN_DUTY) / (MAX_ANGLE - MIN_ANGLE))`. -/
def duty_rounded (angle : Int) : Int :=
  SERVO_MIN_DUTY_NS +
    round (((angle * (SERVO_MAX_DUTY_NS - SERVO_MIN_DUTY_NS) : Int) : ℚ) /
      ((SERVO_MAX_ANGLE - SERVO_MIN_ANGLE : Int) : ℚ))

/-- The same formula with the quotient rounded down. -/
def duty_floored (angle : Int) : Int :=
  SERVO_MIN_DUTY_NS +
    Int.floor (((angle * (SERVO_MAX_DUTY_NS - SERVO_MIN_DUTY_NS) : Int) : ℚ) /
      ((SERVO_MAX_ANGLE - SERVO_MIN_ANGLE : Int) : ℚ))

/-! ## Example platforms and states used by the concrete checks -/

/-- A platform on which every service succeeds. -/
def platform_ok : Platform :=
  { chan0 := { duty_cycle := 0, period := 0, enabled := false }
    kzalloc := 4096
    pwm_get := fun _ => 8192
    alloc_chrdev_region := 0
    devno := 248
    cdev_add := 0
    class_create := 12288
    device_create := 16384
    pwm_config := fun _ _ _ => 0
    pwm_enable := fun _ => 0 }

/-- As `platform_ok`, but `pwm_config` rejects every request with `-EINVAL`. -/
def platform_config_fails : Platform := { platform_ok with pwm_config := fun _ _ _ => -22 }

/-- As `platform_ok`, but `pwm_enable` fails with `-EIO`. -/
def platform_enable_fails : Platform := { platform_ok with pwm_enable := fun _ => -5 }

/-- A device at 90 degrees whose channel carries the matching timing. -/
def dev_at_90 : servo_device :=
  { pwm := 8192, devno := 248, class_ := 12288, device := 16384, current_angle := 90 }

def world_at_90 : World :=
  { chan := { duty_cycle := 1500000, period := 20000000, enabled := true }, trace := [] }

/-- As `platform_ok`, but only the name `sg90` is accepted by `pwm_get`. -/
def platform_only_sg90 : Platform :=
  { platform_ok with pwm_get := fun name => if name = some "sg90" then 8192 else -19 }

/-- As `platform_ok`, but `class_create` fails with `-ENOMEM`. -/
def platform_class_fails : Platform := { platform_ok with class_create := -12 }

/-- As `platform_ok`, but no `pwm_get` attempt is accepted. -/
def platform_no_channel : Platform := { platform_ok with pwm_get := fun _ => -19 }

/-- The device structure `servo_init` has built on `platform_ok` when it
reaches line 203: every resource is bound, `current_angle` is still the 0 that
`kzalloc` left. -/
def dev_fresh : servo_device :=
  { pwm := 8192, devno := 248, class_ := 12288, device := 16384, current_angle := 0 }

/-- The world at that point. -/
def world_fresh : World :=
  { chan := { duty_cycle := 0, period := 0, enabled := false }
    trace := [Event.kzalloc 4096, Event.pwm_get (some "pwmchip2") 8192,
      Event.alloc_chrdev_region 0, Event.cdev_init, Event.cdev_add 0,
      Event.class_create 12288, Event.device_create 16384] }

/-! ## Arithmetic of the duty computation -/

theorem wrap32_of_int_range (x : Int) (h1 : -2147483648 ≤ x) (h2 : x < 2147483648) :
    wrap32 x = x := by
  unfold wrap32; omega

theorem clamp_angle_eq (a : Int) :
    clamp_angle a = if a < 0 then 0 else if a > 180 then 180 else a := by
  unfold clamp_angle SERVO_MIN_ANGLE SERVO_MAX_ANGLE
  by_cases h : a < 0
  · simp [h]
  · simp [h]

theorem clamp_angle_range (a : Int) : 0 ≤ clamp_angle a ∧ clamp_angle a ≤ 180 := by
  rw [clamp_angle_eq]
  split_ifs <;> omega

theorem clamp_angle_mono (a b : Int) (h : a ≤ b) : clamp_angle a ≤ clamp_angle b := by
  rw [clamp_angle_eq, clamp_angle_eq]
  split_ifs <;> omega

/-- On the clamped range no intermediate result leaves the 32-bit range and
the truncating division is the floor division. -/
theorem duty_ns_of_eq (a : Int) (h0 : 0 ≤ a) (h1 : a ≤ 180) :
    duty_ns_of a = 500000 + a * 2000000 / 180 := by
  unfold duty_ns_of SERVO_MIN_DUTY_NS SERVO_MAX_DUTY_NS SERVO_MIN_ANGLE SERVO_MAX_ANGLE
  have e1 : wrap32 (2500000 - 500000) = 2000000 := by decide
  have e2 : wrap32 (180 - 0) = 180 := by decide
  have e3 : wrap32 (a * 2000000) = a * 2000000 := wrap32_of_int_range _ (by omega) (by omega)
  rw [e1, e2, e3, Int.tdiv_eq_ediv (by omega) (by omega)]
  exact wrap32_of_int_range _ (by omega) (by omega)

/-! ## `servo_set_angle`: outcome by case -/

theorem config_call_trace (p : Platform) (dev : servo_device) (w : World) (angle : Int) :
    (config_call p dev w angle).2.trace =
      w.trace ++ [Event.pwm_config dev.pwm (duty_ns_of (clamp_angle angle)) SERVO_PERIOD_NS
        (config_call p dev w angle).1] := rfl

theorem enable_call_trace (p : Platform) (dev : servo_device) (w : World) (angle : Int) :
    (enable_call p dev w angle).2.trace =
      w.trace ++ [Event.pwm_config dev.pwm (duty_ns_of (clamp_angle angle)) SERVO_PERIOD_NS
        (config_call p dev w angle).1,
        Event.pwm_enable dev.pwm (enable_call p dev w angle).1] := by
  simp [enable_call, pwm_enable, config_call_trace]

theorem servo_set_angle_config_fails (p : Platform) (dev : servo_device) (w : World)
    (angle : Int) (h : (config_call p dev w angle).1 < 0) :
    servo_set_angle p dev w angle =
      ((config_call p dev w angle).1, dev, (config_call p dev w angle).2) := by
  unfold config_call at h ⊢
  simp only [servo_set_angle, h, if_true]

theorem servo_set_angle_enable_fails (p : Platform) (dev : servo_device) (w : World)
    (angle : Int) (h : ¬ (config_call p dev w angle).1 < 0)
    (h2 : (enable_call p dev w angle).1 < 0) :
    servo_set_angle p dev w angle =
      ((enable_call p dev w angle).1, dev, (enable_call p dev w angle).2) := by
  unfold enable_call config_call at *
  simp only [servo_set_angle, h, h2, if_true, if_false]

theorem servo_set_angle_success (p : Platform) (dev : servo_device) (w : World)
    (angle : Int) (h : ¬ (config_call p dev w angle).1 < 0)
    (h2 : ¬ (enable_call p dev w angle).1 < 0) :
    servo_set_angle p dev w angle =
      (0, { dev with current_angle := clamp_angle angle }, (enable_call p dev w angle).2) := by
  unfold enable_call config_call at *
  simp only [servo_set_angle, h, h2, if_false]

/-- A zero return of `servo_set_angle` means both platform calls succeeded. -/
theorem servo_set_angle_zero (p : Platform) (dev : servo_device) (w : World)
    (angle : Int) (h : (servo_set_angle p dev w angle).1 = 0) :
    ¬ (config_call p dev w angle).1 < 0 ∧ ¬ (enable_call p dev w angle).1 < 0 := by
  by_cases hc : (config_call p dev w angle).1 < 0
  · rw [servo_set_angle_config_fails p dev w angle hc] at h
    simp only at h
    omega
  · by_cases he : (enable_call p dev w angle).1 < 0
    · rw [servo_set_angle_enable_fails p dev w angle hc he] at h
      simp only at h
      omega
    · exact ⟨hc, he⟩

/-! ## Claims on `servo_set_angle` and `servo_ioctl` -/

/-- C1: when the configure call fails, `servo_set_angle` returns that negative
value, leaves the device structure (hence `current_angle`) as it was, and the
only call it made is the configure call, so enable is not called; when
configure succeeds and the enable call fails, it returns that negative value
and again leaves `current_angle` as it was. -/
theorem servo_set_angle_failure_keeps_angle (p : Platform) (dev : servo_device) (w : World)
    (angle : Int) :
    ((config_call p dev w angle).1 < 0 →
      (servo_set_angle p dev w angle).1 = (config_call p dev w angle).1 ∧
      (servo_set_angle p dev w angle).2.1.current_angle = dev.current_angle ∧
      (servo_set_angle p dev w angle).2.2.trace =
        w.trace ++ [Event.pwm_config dev.pwm (duty_ns_of (clamp_angle angle)) SERVO_PERIOD_NS
          (config_call p dev w angle).1]) ∧
    (¬ (config_call p dev w angle).1 < 0 → (enable_call p dev w angle).1 < 0 →
      (servo_set_angle p dev w angle).1 = (enable_call p dev w angle).1 ∧
      (servo_set_angle p dev w angle).2.1.current_angle = dev.current_angle) := by
  constructor
  · intro h
    rw [servo_set_angle_config_fails p dev w angle h]
    exact ⟨rfl, rfl, config_call_trace p dev w angle⟩
  · intro h h2
    rw [servo_set_angle_enable_fails p dev w angle h h2]
    exact ⟨rfl, rfl⟩

/-- C1, concrete runs: from 90 degrees, `servo_set_angle(10)` with a failing
configure returns -22 after one call, with a failing enable returns -5; the
angle stays 90 in both. -/
theorem servo_set_angle_failure_keeps_angle_witness :
    ((servo_set_angle platform_config_fails dev_at_90 world_at_90 10).1 = -22 ∧
      (servo_set_angle platform_config_fails dev_at_90 world_at_90 10).2.1.current_angle = 90 ∧
      (servo_set_angle platform_config_fails dev_at_90 world_at_90 10).2.2.trace =
        [Event.pwm_config 8192 611111 20000000 (-22)]) ∧
    ((servo_set_angle platform_enable_fails dev_at_90 world_at_90 10).1 = -5 ∧
      (servo_set_angle platform_enable_fails dev_at_90 world_at_90 10).2.1.current_angle = 90) :=
  ⟨(servo_set_angle_failure_keeps_angle platform_config_fails dev_at_90 world_at_90 10).1
      (by decide),
   (servo_set_angle_failure_keeps_angle platform_enable_fails dev_at_90 world_at_90 10).2
      (by decide) (by decide)⟩

/-- C2: when the set-angle ioctl with input `x` returns 0, a get-angle ioctl
issued on the resulting state (with a writable argument) returns 0, changes
nothing and writes `x` clamped to [0, 180] to the caller. -/
theorem get_angle_after_set_angle (p : Platform) (dev : servo_device) (w : World) (x : Int)
    (arg1 arg2 : UserArg) (hx : arg1.value = some x) (hw : arg2.writable = true)
    (hset : (servo_ioctl p dev w SERVO_SET_ANGLE arg1).1 = 0) :
    servo_ioctl p (servo_ioctl p dev w SERVO_SET_ANGLE arg1).2.1
        (servo_ioctl p dev w SERVO_SET_ANGLE arg1).2.2.1 SERVO_GET_ANGLE arg2 =
      (0, (servo_ioctl p dev w SERVO_SET_ANGLE arg1).2.1,
        (servo_ioctl p dev w SERVO_SET_ANGLE arg1).2.2.1,
        some (if x < 0 then 0 else if x > 180 then 180 else x)) := by
  have hne : SERVO_GET_ANGLE ≠ SERVO_SET_ANGLE := by decide
  have e : servo_ioctl p dev w SERVO_SET_ANGLE arg1 =
      ((servo_set_angle p dev w x).1, (servo_set_angle p dev w x).2.1,
        (servo_set_angle p dev w x).2.2, none) := by
    simp [servo_ioctl, hx]
  rw [e] at hset ⊢
  simp only at hset
  obtain ⟨hc, he⟩ := servo_set_angle_zero p dev w x hset
  rw [servo_set_angle_success p dev w x hc he]
  simp [servo_ioctl, hne, hw, clamp_angle_eq]

/-- C2, concrete run: after a successful set-angle ioctl with 200 the get-angle
ioctl writes 180. -/
theorem get_angle_after_set_angle_witness :
    (servo_ioctl platform_ok
        (servo_ioctl platform_ok dev_at_90 world_at_90 SERVO_SET_ANGLE ⟨some 200, false⟩).2.1
        (servo_ioctl platform_ok dev_at_90 world_at_90 SERVO_SET_ANGLE ⟨some 200, false⟩).2.2.1
        SERVO_GET_ANGLE ⟨none, true⟩).2.2.2 = some 180 := by
  rw [get_angle_after_set_angle platform_ok dev_at_90 world_at_90 200 ⟨some 200, false⟩
    ⟨none, true⟩ rfl rfl (by decide)]
  decide

/-- C3: for inputs `a ≤ b` in [-1000, 1000] the duty `servo_set_angle` computes
for `a` (clamp, then the 32-bit computation) lies in [500000, 2500000] and is at
most the duty it computes for `b`. -/
theorem servo_duty_bounded_monotone (a b : Int) (_ha : -1000 ≤ a) (hab : a ≤ b)
    (_hb : b ≤ 1000) :
    500000 ≤ duty_ns_of (clamp_angle a) ∧ duty_ns_of (clamp_angle a) ≤ 2500000 ∧
      duty_ns_of (clamp_angle a) ≤ duty_ns_of (clamp_angle b) := by
  have ra := clamp_angle_range a
  have rb := clamp_angle_range b
  have hm := clamp_angle_mono a b hab
  rw [duty_ns_of_eq _ ra.1 ra.2, duty_ns_of_eq _ rb.1 rb.2]
  omega

/-- C3, concrete pair: inputs -1000 and 1000. -/
theorem servo_duty_bounded_monotone_witness :
    500000 ≤ duty_ns_of (clamp_angle (-1000)) ∧ duty_ns_of (clamp_angle (-1000)) ≤ 2500000 ∧
      duty_ns_of (clamp_angle (-1000)) ≤ duty_ns_of (clamp_angle 1000) :=
  servo_duty_bounded_monotone (-1000) 1000 (by decide) (by decide) (by decide)

/-- C5: the duty `servo_set_angle` passes to `pwm_config` is 500000 ns for
input 0, 2500000 ns for input 180 and 1500000 ns for input 90. -/
theorem servo_duty_endpoints (p : Platform) (dev : servo_device) (w : World) :
    (config_call p dev w 0).2.trace =
      w.trace ++ [Event.pwm_config dev.pwm 500000 20000000 (config_call p dev w 0).1] ∧
    (config_call p dev w 180).2.trace =
      w.trace ++ [Event.pwm_config dev.pwm 2500000 20000000 (config_call p dev w 180).1] ∧
    (config_call p dev w 90).2.trace =
      w.trace ++ [Event.pwm_config dev.pwm 1500000 20000000 (config_call p dev w 90).1] ∧
    duty_ns_of (clamp_angle 0) = 500000 ∧ duty_ns_of (clamp_angle 180) = 2500000 ∧
    duty_ns_of (clamp_angle 90) = 1500000 := by
  have h0 : duty_ns_of (clamp_angle 0) = 500000 := by decide
  have h180 : duty_ns_of (clamp_angle 180) = 2500000 := by decide
  have h90 : duty_ns_of (clamp_angle 90) = 1500000 := by decide
  have hp : SERVO_PERIOD_NS = 20000000 := rfl
  refine ⟨?_, ?_, ?_, h0, h180, h90⟩
  · rw [config_call_trace, h0, hp]
  · rw [config_call_trace, h180, hp]
  · rw [config_call_trace, h90, hp]

/-! ## The duty formula against the rounded formula of the specification -/

theorem duty_floored_eq (a : Int) : duty_floored a = 500000 + a * 2000000 / 180 := by
  unfold duty_floored SERVO_MIN_DUTY_NS SERVO_MAX_DUTY_NS SERVO_MIN_ANGLE SERVO_MAX_ANGLE
  have h : ((180 - 0 : Int) : ℚ) = ((180 : ℕ) : ℚ) := by norm_num
  rw [h, Rat.floor_intCast_div_natCast]
  norm_num

theorem duty_floored_le_rounded (a : Int) :
    duty_floored a ≤ duty_rounded a ∧ duty_rounded a ≤ duty_floored a + 1 := by
  unfold duty_floored duty_rounded
  rw [round_eq]
  generalize ((a * (SERVO_MAX_DUTY_NS - SERVO_MIN_DUTY_NS) : Int) : ℚ) /
    ((SERVO_MAX_ANGLE - SERVO_MIN_ANGLE : Int) : ℚ) = q
  have h1 : Int.floor q ≤ Int.floor (q + 1 / 2) :=
    Int.floor_le_floor (by linarith)
  have h2 : Int.floor (q + 1 / 2) ≤ Int.floor (q + 1) :=
    Int.floor_le_floor (by linarith)
  rw [Int.floor_add_one] at h2
  omega

/-- C4, as stated, fails at angle 5: `servo_set_angle` passes 555555 ns to
`pwm_config`, while the rounded formula gives 555556 ns (5 * 2000000 / 180 =
55555.56). -/
theorem duty_rounded_counterexample :
    (0 : Int) ≤ 5 ∧ (5 : Int) ≤ 180 ∧
    (config_call platform_ok dev_at_90 world_at_90 5).2.trace =
      [Event.pwm_config 8192 555555 20000000 0] ∧
    duty_rounded 5 = 555556 := by
  refine ⟨by decide, by decide, by decide, ?_⟩
  unfold duty_rounded SERVO_MIN_DUTY_NS SERVO_MAX_DUTY_NS SERVO_MIN_ANGLE SERVO_MAX_ANGLE
  have h : round (((5 * (2500000 - 500000) : Int) : ℚ) / ((180 - 0 : Int) : ℚ)) = 55556 := by
    rw [round_eq, Int.floor_eq_iff]
    norm_num
  rw [h]
  norm_num

/-- C4, amended: for every angle in [0, 180] the configure call of
`servo_set_angle` receives the duty `MIN_DUTY + floor(angle * (MAX_DUTY -
MIN_DUTY) / (MAX_ANGLE - MIN_ANGLE))`, the quotient rounded down, which is the
rounded value or one below it, and the period 20000000 ns. -/
theorem servo_duty_is_floored (p : Platform) (dev : servo_device) (w : World) (angle : Int)
    (h0 : 0 ≤ angle) (h1 : angle ≤ 180) :
    (config_call p dev w angle).2.trace =
      w.trace ++ [Event.pwm_config dev.pwm (duty_floored angle) 20000000
        (config_call p dev w angle).1] ∧
    duty_floored angle = 500000 + angle * 2000000 / 180 ∧
    duty_floored angle ≤ duty_rounded angle ∧ duty_rounded angle ≤ duty_floored angle + 1 := by
  have hc : clamp_angle angle = angle := by
    rw [clamp_angle_eq]; split_ifs <;> omega
  have hd : duty_ns_of (clamp_angle angle) = duty_floored angle := by
    rw [hc, duty_ns_of_eq angle h0 h1, duty_floored_eq]
  have hp : SERVO_PERIOD_NS = 20000000 := rfl
  refine ⟨?_, duty_floored_eq angle, duty_floored_le_rounded angle⟩
  rw [config_call_trace, hd, hp]

/-- C4, amended, concrete run: angle 5 on `platform_ok`. -/
theorem servo_duty_is_floored_witness :
    (config_call platform_ok dev_at_90 world_at_90 5).2.trace =
      world_at_90.trace ++ [Event.pwm_config dev_at_90.pwm (duty_floored 5) 20000000
        (config_call platform_ok dev_at_90 world_at_90 5).1] ∧
    duty_floored 5 = 500000 + 5 * 2000000 / 180 ∧
    duty_floored 5 ≤ duty_rounded 5 ∧ duty_rounded 5 ≤ duty_floored 5 + 1 :=
  servo_duty_is_floored platform_ok dev_at_90 world_at_90 5 (by decide) (by decide)

/-! ## Recorded angle against the timing on the channel -/

theorem config_call_chan_of_failure (p : Platform) (dev : servo_device) (w : World)
    (angle : Int) (h : (config_call p dev w angle).1 < 0) :
    (config_call p dev w angle).2.chan = w.chan := by
  unfold config_call pwm_config at h ⊢
  simp only at h ⊢
  rw [if_pos h]

theorem enable_call_duty_of_success (p : Platform) (dev : servo_device) (w : World)
    (angle : Int) (h : ¬ (config_call p dev w angle).1 < 0) :
    (enable_call p dev w angle).2.chan.duty_cycle = duty_ns_of (clamp_angle angle) := by
  unfold enable_call pwm_enable config_call pwm_config at *
  simp only at h ⊢
  rw [if_neg h]
  split_ifs <;> rfl

/-- C8, as stated, fails: from 90 degrees with the channel at 1500000 ns,
`servo_set_angle(0)` on a platform whose configure succeeds and whose enable
fails returns -5, leaves `current_angle` at 90 and leaves 500000 ns configured
on the channel. -/
theorem consistency_counterexample :
    Consistent dev_at_90 world_at_90 ∧
    (servo_set_angle platform_enable_fails dev_at_90 world_at_90 0).1 = -5 ∧
    (servo_set_angle platform_enable_fails dev_at_90 world_at_90 0).2.1.current_angle = 90 ∧
    (servo_set_angle platform_enable_fails dev_at_90 world_at_90 0).2.2.chan.duty_cycle
      = 500000 ∧
    ¬ Consistent (servo_set_angle platform_enable_fails dev_at_90 world_at_90 0).2.1
      (servo_set_angle platform_enable_fails dev_at_90 world_at_90 0).2.2 := by
  unfold Consistent
  refine ⟨by decide, by decide, by decide, by decide, by decide⟩

/-- C8, amended: when the configured duty matches the recorded angle before a
set-angle command, it matches after it for every input whenever configure
fails or configure and enable both succeed; when configure succeeds and enable
then fails, the channel carries the duty of the new (clamped) angle while
`current_angle` keeps its previous value. -/
theorem servo_set_angle_keeps_consistency (p : Platform) (dev : servo_device) (w : World)
    (angle : Int) (hinv : Consistent dev w) :
    ((config_call p dev w angle).1 < 0 ∨ ¬ (enable_call p dev w angle).1 < 0 →
      Consistent (servo_set_angle p dev w angle).2.1 (servo_set_angle p dev w angle).2.2) ∧
    (¬ (config_call p dev w angle).1 < 0 → (enable_call p dev w angle).1 < 0 →
      (servo_set_angle p dev w angle).2.1.current_angle = dev.current_angle ∧
      (servo_set_angle p dev w angle).2.2.chan.duty_cycle = duty_ns_of (clamp_angle angle)) := by
  unfold Consistent at *
  constructor
  · intro hout
    by_cases hc : (config_call p dev w angle).1 < 0
    · rw [servo_set_angle_config_fails p dev w angle hc]
      simp only
      rw [config_call_chan_of_failure p dev w angle hc]
      exact hinv
    · have he : ¬ (enable_call p dev w angle).1 < 0 := by
        rcases hout with h | h
        · exact absurd h hc
        · exact h
      rw [servo_set_angle_success p dev w angle hc he]
      simp only
      exact enable_call_duty_of_success p dev w angle hc
  · intro hc he
    rw [servo_set_angle_enable_fails p dev w angle hc he]
    exact ⟨rfl, enable_call_duty_of_success p dev w angle hc⟩

/-- C8, amended, concrete runs: a rejected configure and a full success, both
from 90 degrees with input 0. -/
theorem servo_set_angle_keeps_consistency_witness :
    Consistent (servo_set_angle platform_config_fails dev_at_90 world_at_90 0).2.1
      (servo_set_angle platform_config_fails dev_at_90 world_at_90 0).2.2 ∧
    Consistent (servo_set_angle platform_ok dev_at_90 world_at_90 0).2.1
      (servo_set_angle platform_ok dev_at_90 world_at_90 0).2.2 :=
  ⟨(servo_set_angle_keeps_consistency platform_config_fails dev_at_90 world_at_90 0
      (by unfold Consistent; decide)).1 (Or.inl (by decide)),
   (servo_set_angle_keeps_consistency platform_ok dev_at_90 world_at_90 0
      (by unfold Consistent; decide)).1 (Or.inr (by decide))⟩

/-! ## Commands on a device that is not yet initialised -/

/-- C10, as stated, fails: on `platform_ok`, lines 154-200 of `servo_init`
leave the device `dev_fresh` with its node created; initialisation has not
finished, yet in that state `servo_set_angle(90)` (the call of line 203) is
carried out, a set-angle ioctl with 45 is carried out (configure and enable
are called, `current_angle` becomes 45, the return is 0) and a get-angle ioctl
returns 0 with the value 0. No call returns an error. -/
theorem not_ready_counterexample :
    servo_init_acquire platform_ok = Except.ok (dev_fresh, world_fresh) ∧
    servo_set_angle platform_ok dev_fresh world_fresh 90 =
      (0, { dev_fresh with current_angle := 90 },
        { chan := { duty_cycle := 1500000, period := 20000000, enabled := true }
          trace := world_fresh.trace ++
            [Event.pwm_config 8192 1500000 20000000 0, Event.pwm_enable 8192 0] }) ∧
    servo_ioctl platform_ok dev_fresh world_fresh SERVO_SET_ANGLE ⟨some 45, false⟩ =
      (0, { dev_fresh with current_angle := 45 },
        { chan := { duty_cycle := 1000000, period := 20000000, enabled := true }
          trace := world_fresh.trace ++
            [Event.pwm_config 8192 1000000 20000000 0, Event.pwm_enable 8192 0] }, none) ∧
    servo_ioctl platform_ok dev_fresh world_fresh SERVO_GET_ANGLE ⟨none, true⟩ =
      (0, dev_fresh, world_fresh, some 0) := by
  refine ⟨rfl, by decide, by decide, by decide⟩

/-- C10, amended: the driver has no readiness gate. On every device structure,
for every input, a set-angle ioctl with a readable argument issues the
configure call for the clamped angle and returns 0, the configure failure or
the enable failure, leaving the device structure as it was on a failure; a
get-angle ioctl with a writable argument returns 0 with `current_angle`, makes
no call on the channel and changes nothing. -/
theorem servo_ioctl_has_no_ready_gate (p : Platform) (dev : servo_device) (w : World)
    (x : Int) (arg : UserArg) (hv : arg.value = some x) (hw : arg.writable = true) :
    (∃ rest, (servo_ioctl p dev w SERVO_SET_ANGLE arg).2.2.1.trace =
      w.trace ++ Event.pwm_config dev.pwm (duty_ns_of (clamp_angle x)) SERVO_PERIOD_NS
        (config_call p dev w x).1 :: rest) ∧
    ((servo_ioctl p dev w SERVO_SET_ANGLE arg).1 = 0 ∨
      ((servo_ioctl p dev w SERVO_SET_ANGLE arg).1 < 0 ∧
        ((servo_ioctl p dev w SERVO_SET_ANGLE arg).1 = (config_call p dev w x).1 ∨
         (servo_ioctl p dev w SERVO_SET_ANGLE arg).1 = (enable_call p dev w x).1))) ∧
    ((servo_ioctl p dev w SERVO_SET_ANGLE arg).1 < 0 →
      (servo_ioctl p dev w SERVO_SET_ANGLE arg).2.1 = dev) ∧
    servo_ioctl p dev w SERVO_GET_ANGLE arg = (0, dev, w, some dev.current_angle) := by
  have hne : SERVO_GET_ANGLE ≠ SERVO_SET_ANGLE := by decide
  have e : servo_ioctl p dev w SERVO_SET_ANGLE arg =
      ((servo_set_angle p dev w x).1, (servo_set_angle p dev w x).2.1,
        (servo_set_angle p dev w x).2.2, none) := by
    simp [servo_ioctl, hv]
  refine ⟨?_, ?_, ?_, by simp [servo_ioctl, hne, hw]⟩
  · rw [e]
    by_cases hc : (config_call p dev w x).1 < 0
    · rw [servo_set_angle_config_fails p dev w x hc]
      exact ⟨[], config_call_trace p dev w x⟩
    · by_cases he : (enable_call p dev w x).1 < 0
      · rw [servo_set_angle_enable_fails p dev w x hc he]
        exact ⟨_, enable_call_trace p dev w x⟩
      · rw [servo_set_angle_success p dev w x hc he]
        exact ⟨_, enable_call_trace p dev w x⟩
  · rw [e]
    by_cases hc : (config_call p dev w x).1 < 0
    · rw [servo_set_angle_config_fails p dev w x hc]
      exact Or.inr ⟨hc, Or.inl rfl⟩
    · by_cases he : (enable_call p dev w x).1 < 0
      · rw [servo_set_angle_enable_fails p dev w x hc he]
        exact Or.inr ⟨he, Or.inr rfl⟩
      · rw [servo_set_angle_success p dev w x hc he]
        exact Or.inl rfl
  · rw [e]
    by_cases hc : (config_call p dev w x).1 < 0
    · rw [servo_set_angle_config_fails p dev w x hc]
      exact fun _ => rfl
    · by_cases he : (enable_call p dev w x).1 < 0
      · rw [servo_set_angle_enable_fails p dev w x hc he]
        exact fun _ => rfl
      · rw [servo_set_angle_success p dev w x hc he]
        intro h
        simp only at h
        omega

/-- C10, amended, concrete run: the device `servo_init` is still initialising,
with a rejecting `pwm_config`; the set-angle ioctl with 45 returns -22 and the
get-angle ioctl returns the angle 0. -/
theorem servo_ioctl_has_no_ready_gate_witness :
    (servo_ioctl platform_config_fails dev_fresh world_fresh SERVO_SET_ANGLE
        ⟨some 45, true⟩).1 = -22 ∧
    servo_ioctl platform_config_fails dev_fresh world_fresh SERVO_GET_ANGLE ⟨some 45, true⟩ =
      (0, dev_fresh, world_fresh, some 0) :=
  ⟨by decide,
   (servo_ioctl_has_no_ready_gate platform_config_fails dev_fresh world_fresh 45
      ⟨some 45, true⟩ rfl rfl).2.2.2⟩

/-! ## `servo_init` when the default angle cannot be applied -/

/-- C6, the code at the failing input: on a platform where every acquisition
succeeds and `pwm_config` rejects the request, `servo_init` returns 0, keeps
the device structure, undoes nothing, and leaves `current_angle` at 0, which a
get-angle ioctl then reports. -/
theorem servo_init_drops_default_failure :
    servo_init platform_config_fails =
      (0, some dev_fresh,
        { chan := { duty_cycle := 0, period := 0, enabled := false }
          trace := world_fresh.trace ++ [Event.pwm_config 8192 1500000 20000000 (-22)] }) ∧
    (servo_set_angle platform_config_fails dev_fresh world_fresh 90).1 = -22 ∧
    released (servo_init platform_config_fails).2.2.trace = [] ∧
    (servo_ioctl platform_config_fails dev_fresh (servo_init platform_config_fails).2.2
      SERVO_GET_ANGLE ⟨none, true⟩).2.2.2 = some 0 := by
  refine ⟨by decide, by decide, by decide, by decide⟩

/-! ## `servo_get_pwm_device`: order of the attempts -/

/-- C9: `servo_get_pwm_device` asks for "pwmchip2", "2030000.pwm", "sg90" in
that order and returns the first handle that is not an error, making no further
attempt; when the three names are rejected it makes one attempt without a name
and returns its handle if accepted; when that is rejected too it returns
`-ENODEV`. The result is an error exactly when all four attempts are rejected. -/
theorem servo_get_pwm_device_order (p : Platform) (w : World) :
    (IS_ERR (p.pwm_get (some "pwmchip2")) = false →
      servo_get_pwm_device p w = (p.pwm_get (some "pwmchip2"),
        { chan := w.chan, trace := w.trace ++ [attempt p (some "pwmchip2")] })) ∧
    (IS_ERR (p.pwm_get (some "pwmchip2")) = true →
      IS_ERR (p.pwm_get (some "2030000.pwm")) = false →
      servo_get_pwm_device p w = (p.pwm_get (some "2030000.pwm"),
        { chan := w.chan, trace := w.trace ++
          [attempt p (some "pwmchip2"), attempt p (some "2030000.pwm")] })) ∧
    (IS_ERR (p.pwm_get (some "pwmchip2")) = true →
      IS_ERR (p.pwm_get (some "2030000.pwm")) = true →
      IS_ERR (p.pwm_get (some "sg90")) = false →
      servo_get_pwm_device p w = (p.pwm_get (some "sg90"),
        { chan := w.chan, trace := w.trace ++
          [attempt p (some "pwmchip2"), attempt p (some "2030000.pwm"),
           attempt p (some "sg90")] })) ∧
    (IS_ERR (p.pwm_get (some "pwmchip2")) = true →
      IS_ERR (p.pwm_get (some "2030000.pwm")) = true →
      IS_ERR (p.pwm_get (some "sg90")) = true →
      IS_ERR (p.pwm_get none) = false →
      servo_get_pwm_device p w = (p.pwm_get none,
        { chan := w.chan, trace := w.trace ++
          [attempt p (some "pwmchip2"), attempt p (some "2030000.pwm"),
           attempt p (some "sg90"), attempt p none] })) ∧
    (IS_ERR (p.pwm_get (some "pwmchip2")) = true →
      IS_ERR (p.pwm_get (some "2030000.pwm")) = true →
      IS_ERR (p.pwm_get (some "sg90")) = true →
      IS_ERR (p.pwm_get none) = true →
      servo_get_pwm_device p w = (-ENODEV,
        { chan := w.chan, trace := w.trace ++
          [attempt p (some "pwmchip2"), attempt p (some "2030000.pwm"),
           attempt p (some "sg90"), attempt p none] })) ∧
    (IS_ERR (servo_get_pwm_device p w).1 = true ↔
      (IS_ERR (p.pwm_get (some "pwmchip2")) = true ∧
       IS_ERR (p.pwm_get (some "2030000.pwm")) = true ∧
       IS_ERR (p.pwm_get (some "sg90")) = true ∧
       IS_ERR (p.pwm_get none) = true)) := by
  have hnodev : IS_ERR (-ENODEV) = true := by decide
  refine ⟨?_, ?_, ?_, ?_, ?_, ?_⟩
  · intro h1
    simp [servo_get_pwm_device, pwm_names, try_pwm_names, World.log, attempt, h1]
  · intro h1 h2
    simp [servo_get_pwm_device, pwm_names, try_pwm_names, World.log, attempt, h1, h2]
  · intro h1 h2 h3
    simp [servo_get_pwm_device, pwm_names, try_pwm_names, World.log, attempt, h1, h2, h3]
  · intro h1 h2 h3 h4
    simp [servo_get_pwm_device, pwm_names, try_pwm_names, World.log, attempt, h1, h2, h3, h4]
  · intro h1 h2 h3 h4
    simp [servo_get_pwm_device, pwm_names, try_pwm_names, World.log, attempt, h1, h2, h3, h4]
  · cases h1 : IS_ERR (p.pwm_get (some "pwmchip2")) <;>
    cases h2 : IS_ERR (p.pwm_get (some "2030000.pwm")) <;>
    cases h3 : IS_ERR (p.pwm_get (some "sg90")) <;>
    cases h4 : IS_ERR (p.pwm_get none) <;>
    simp [servo_get_pwm_device, pwm_names, try_pwm_names, World.log, h1, h2, h3, h4, hnodev]

/-- C9, concrete runs: a platform that accepts only "sg90" (three attempts, the
third handle is returned) and a platform that accepts nothing (four attempts,
`-ENODEV`). -/
theorem servo_get_pwm_device_order_witness :
    servo_get_pwm_device platform_only_sg90 (init_world platform_only_sg90) =
      (8192, { chan := platform_only_sg90.chan0,
               trace := [Event.kzalloc 4096, Event.pwm_get (some "pwmchip2") (-19),
                 Event.pwm_get (some "2030000.pwm") (-19), Event.pwm_get (some "sg90") 8192] }) ∧
    servo_get_pwm_device platform_no_channel (init_world platform_no_channel) =
      (-19, { chan := platform_no_channel.chan0,
              trace := [Event.kzalloc 4096, Event.pwm_get (some "pwmchip2") (-19),
                Event.pwm_get (some "2030000.pwm") (-19), Event.pwm_get (some "sg90") (-19),
                Event.pwm_get none (-19)] }) :=
  ⟨(servo_get_pwm_device_order platform_only_sg90 (init_world platform_only_sg90)).2.2.1
      (by decide) (by decide) (by decide),
   (servo_get_pwm_device_order platform_no_channel (init_world platform_no_channel)).2.2.2.2.1
      (by decide) (by decide) (by decide) (by decide)⟩


/-! ## `servo_init`: unwinding on failure -/

/-- The channel lookup gives nothing back, and owes a `pwm_put` exactly when
it returns a handle. -/
theorem servo_get_pwm_device_owes (p : Platform) (w : World) :
    released (servo_get_pwm_device p w).2.trace = released w.trace ∧
    acquired (servo_get_pwm_device p w).2.trace = acquired w.trace ++
      (if IS_ERR (servo_get_pwm_device p w).1 then []
       else [Event.pwm_put (servo_get_pwm_device p w).1]) := by
  have hnodev : IS_ERR (-ENODEV) = true := by decide
  cases h1 : IS_ERR (p.pwm_get (some "pwmchip2")) <;>
  cases h2 : IS_ERR (p.pwm_get (some "2030000.pwm")) <;>
  cases h3 : IS_ERR (p.pwm_get (some "sg90")) <;>
  cases h4 : IS_ERR (p.pwm_get none) <;>
  simp [servo_get_pwm_device, pwm_names, try_pwm_names, World.log, h1, h2, h3, h4, hnodev,
    released, acquired, List.filter_append, List.filterMap_append, is_undo, undo_of]

/-- C7: with the device structure allocated, when a registration step of
`servo_init` fails after the channel was acquired (`alloc_chrdev_region`,
`cdev_add`, `class_create` or `device_create`), `servo_init` returns that
step's error and the undo calls of the whole run are exactly: the undo of each
registration step that had succeeded, latest first, then one `pwm_put` of the
acquired channel, then `kfree`; the failed step and the steps never reached
are not undone. When no channel is acquired the lookup's error is returned and
`kfree` is the only undo call, so no `pwm_put` is made. On every failing run
the undo calls are the reverse of what the successful acquisitions owe. -/
theorem servo_init_unwinds (p : Platform) (hk : p.kzalloc ≠ 0) :
    (IS_ERR (servo_get_pwm_device p (init_world p)).1 = true →
      (servo_init p).1 = (servo_get_pwm_device p (init_world p)).1 ∧
      released (servo_init p).2.2.trace = [Event.kfree]) ∧
    (IS_ERR (servo_get_pwm_device p (init_world p)).1 = false →
      (p.alloc_chrdev_region < 0 →
        (servo_init p).1 = p.alloc_chrdev_region ∧
        released (servo_init p).2.2.trace =
          [Event.pwm_put (servo_get_pwm_device p (init_world p)).1, Event.kfree]) ∧
      (¬ p.alloc_chrdev_region < 0 → p.cdev_add < 0 →
        (servo_init p).1 = p.cdev_add ∧
        released (servo_init p).2.2.trace =
          [Event.unregister_chrdev_region,
           Event.pwm_put (servo_get_pwm_device p (init_world p)).1, Event.kfree]) ∧
      (¬ p.alloc_chrdev_region < 0 → ¬ p.cdev_add < 0 → IS_ERR p.class_create = true →
        (servo_init p).1 = p.class_create ∧
        released (servo_init p).2.2.trace =
          [Event.cdev_del, Event.unregister_chrdev_region,
           Event.pwm_put (servo_get_pwm_device p (init_world p)).1, Event.kfree]) ∧
      (¬ p.alloc_chrdev_region < 0 → ¬ p.cdev_add < 0 → IS_ERR p.class_create = false →
        IS_ERR p.device_create = true →
        (servo_init p).1 = p.device_create ∧
        released (servo_init p).2.2.trace =
          [Event.class_destroy, Event.cdev_del, Event.unregister_chrdev_region,
           Event.pwm_put (servo_get_pwm_device p (init_world p)).1, Event.kfree])) ∧
    ((servo_init p).2.1 = none →
      released (servo_init p).2.2.trace = (acquired (servo_init p).2.2.trace).reverse) := by
  obtain ⟨hrel, hacq⟩ := servo_get_pwm_device_owes p (init_world p)
  have hrel0 : released (init_world p).trace = [] := by
    simp [released, init_world, is_undo]
  have hacq0 : acquired (init_world p).trace = [Event.kfree] := by
    simp [acquired, init_world, undo_of, hk]
  rw [hrel0] at hrel
  rw [hacq0] at hacq
  unfold released at hrel
  unfold acquired at hacq
  refine ⟨?_, ?_, ?_⟩
  · intro hg
    simp [servo_init, servo_init_acquire, hk, hg, err_pwm, World.log, released,
      List.filter_append, is_undo, hrel]
  · intro hg
    refine ⟨?_, ?_, ?_, ?_⟩
    · intro h1
      simp [servo_init, servo_init_acquire, hk, hg, h1, err_pwm, err_alloc, World.log, released,
        List.filter_append, is_undo, hrel]
    · intro h1 h2
      simp [servo_init, servo_init_acquire, hk, hg, h1, h2, err_pwm, err_alloc, err_cdev,
        World.log, released, List.filter_append, is_undo, hrel]
    · intro h1 h2 h3
      simp [servo_init, servo_init_acquire, hk, hg, h1, h2, h3, err_pwm, err_alloc, err_cdev,
        err_class, World.log, released, List.filter_append, is_undo, hrel]
    · intro h1 h2 h3 h4
      simp [servo_init, servo_init_acquire, hk, hg, h1, h2, h3, h4, err_pwm, err_alloc,
        err_cdev, err_class, err_device, World.log, released, List.filter_append, is_undo, hrel]
  · intro hnone
    cases hg : IS_ERR (servo_get_pwm_device p (init_world p)).1
    · rw [hg] at hacq
      by_cases h1 : p.alloc_chrdev_region < 0
      · simp [servo_init, servo_init_acquire, hk, hg, h1, err_pwm, err_alloc, World.log,
          released, acquired, List.filter_append, List.filterMap_append, is_undo, undo_of,
          hrel, hacq]
      · by_cases h2 : p.cdev_add < 0
        · simp [servo_init, servo_init_acquire, hk, hg, h1, h2, err_pwm, err_alloc, err_cdev,
            World.log, released, acquired, List.filter_append, List.filterMap_append, is_undo,
            undo_of, hrel, hacq]
        · cases h3 : IS_ERR p.class_create
          · cases h4 : IS_ERR p.device_create
            · simp [servo_init, servo_init_acquire, hk, hg, h1, h2, h3, h4] at hnone
            · simp [servo_init, servo_init_acquire, hk, hg, h1, h2, h3, h4, err_pwm, err_alloc,
                err_cdev, err_class, err_device, World.log, released, acquired,
                List.filter_append, List.filterMap_append, is_undo, undo_of, hrel, hacq]
          · simp [servo_init, servo_init_acquire, hk, hg, h1, h2, h3, err_pwm, err_alloc,
              err_cdev, err_class, World.log, released, acquired, List.filter_append,
              List.filterMap_append, is_undo, undo_of, hrel, hacq]
    · rw [hg] at hacq
      simp [servo_init, servo_init_acquire, hk, hg, err_pwm, World.log, released, acquired,
        List.filter_append, List.filterMap_append, is_undo, undo_of, hrel, hacq]

/-- C7, concrete runs: a failing `class_create` (error -12; `cdev_del`,
`unregister_chrdev_region`, `pwm_put`, `kfree` follow) and a platform without
any channel (error -19; only `kfree` follows). -/
theorem servo_init_unwinds_witness :
    ((servo_init platform_class_fails).1 = -12 ∧
      released (servo_init platform_class_fails).2.2.trace =
        [Event.cdev_del, Event.unregister_chrdev_region, Event.pwm_put 8192, Event.kfree]) ∧
    ((servo_init platform_no_channel).1 = -19 ∧
      released (servo_init platform_no_channel).2.2.trace = [Event.kfree]) :=
  ⟨((servo_init_unwinds platform_class_fails (by decide)).2.1 (by decide)).2.2.1
      (by decide) (by decide) (by decide),
   (servo_init_unwinds platform_no_channel (by decide)).1 (by decide)⟩

end SG90
